import Mathlib

/-!
Shallow embedding of the FADA real-time failure-risk detection and
quality-scoring pipeline.

Sources embedded:
- `src/src/analysis/quality.js` — `QualityAnalyzer` and `SpaghettiDetector`.
- `src/unnamed/part_006` — `PrintMonitor` (session monitor, telemetry buffers,
  layer tracking, real-time alerts).

Modelling conventions:
- JS numbers are modelled as `ℚ` where the code only adds, multiplies,
  divides, compares and floors them; the `QualityAnalyzer` scores, which pass
  through `Math.sqrt`, are modelled over `ℝ`.
- `Math.sqrt(v) > c` over a nonnegative variance `v` is equivalent to
  `c < 0 ∨ c ^ 2 < v` (square root is monotone and nonnegative); where the
  code only *compares* a standard deviation against a threshold we embed that
  decidable equivalent so the definitions stay executable.
- `Date.now()` is passed explicitly as a `now : ℤ` parameter (milliseconds).
- `Array.prototype.slice(-n)` is `takeLast n`, i.e. `drop (length - n)`.
-/

namespace FADA

/-- JS `xs.slice(-n)`: the last `n` elements (whole list if shorter). -/
def takeLast {α : Type _} (n : ℕ) (l : List α) : List α :=
  l.drop (l.length - n)

/-- Mean of a list of rationals (callers guard against the empty list,
mirroring the JS `reduce(...) / length` pattern). -/
def average (l : List ℚ) : ℚ :=
  l.sum / (l.length : ℚ)

/-- Population variance, the square of `calculateVariation` in
`quality.js` (`calculateVariation` returns `Math.sqrt` of this). -/
def varianceQ (l : List ℚ) : ℚ :=
  ((l.map fun x => (x - average l) ^ 2).sum) / (l.length : ℚ)

/-- Embeds `calculateVariation(l) > c`, embedded without a real square root:
`calculateVariation` returns `0` when `l` is empty and
`Math.sqrt(variance)` otherwise, and for `0 ≤ c` we have
`Math.sqrt v > c ↔ c ^ 2 < v`, while for `c < 0` the comparison is
always true because the square root is nonnegative. -/
def calculateVariationGT (l : List ℚ) (c : ℚ) : Bool :=
  if l.length = 0 then decide (c < 0)
  else if c < 0 then true
  else decide (c ^ 2 < varianceQ l)

/-! ## SpaghettiDetector (`src/src/analysis/quality.js`, lines 220-565) -/

/-- Per-layer structural data `gcodeAnalysis.layers[currentLayer]` read by
`calculateRiskScore`.  A missing layer entry (`|| {}` in the source) behaves
exactly like `zeroLayerData`: every `> 0` test on `undefined` is false and
`supportMaterial` is falsy. -/
structure LayerData where
  overhangs : ℚ
  bridges : ℚ
  smallFeatures : ℚ
  solidInfill : ℚ
  supportMaterial : Bool

/-- The `|| {}` default layer data. -/
def zeroLayerData : LayerData := ⟨0, 0, 0, 0, false⟩

/-! `SpaghettiDetector.calculateRiskScore` (quality.js lines 269-313) is an
imperative accumulation over four independently triggered risk zones
followed by two multiplicative safe-zone dampeners; we embed each zone's
contribution to `totalRisk` and `weightSum` as its own definition and sum
them, which is the same computation.
Weights: overhangs 0.9, bridges 0.8, firstLayers 0.95, smallFeatures 0.7;
safe-zone weights: solidInfill 0.1, supported 0.1. -/

/-- Overhang contribution to `totalRisk`: `min(overhangs/10, 1) * 0.9` when
`overhangs > 0`. -/
def overhangRisk (ld : LayerData) : ℚ :=
  if 0 < ld.overhangs then min (ld.overhangs / 10) 1 * (9/10) else 0

/-- Overhang contribution to `weightSum`. -/
def overhangWeight (ld : LayerData) : ℚ :=
  if 0 < ld.overhangs then 9/10 else 0

/-- Bridge contribution to `totalRisk`: `min(bridges/5, 1) * 0.8` when
`bridges > 0`. -/
def bridgeRisk (ld : LayerData) : ℚ :=
  if 0 < ld.bridges then min (ld.bridges / 5) 1 * (4/5) else 0

/-- Bridge contribution to `weightSum`. -/
def bridgeWeight (ld : LayerData) : ℚ :=
  if 0 < ld.bridges then 4/5 else 0

/-- First-layers contribution to `totalRisk`: the flat weight 0.95 when
`currentLayer ≤ 3`. -/
def firstLayersRisk (currentLayer : ℤ) : ℚ :=
  if currentLayer ≤ 3 then 19/20 else 0

/-- First-layers contribution to `weightSum`. -/
def firstLayersWeight (currentLayer : ℤ) : ℚ :=
  if currentLayer ≤ 3 then 19/20 else 0

/-- Small-features contribution to `totalRisk`: `min(smallFeatures/20, 1) *
0.7` when `smallFeatures > 0`. -/
def smallFeaturesRisk (ld : LayerData) : ℚ :=
  if 0 < ld.smallFeatures then min (ld.smallFeatures / 20) 1 * (7/10) else 0

/-- Small-features contribution to `weightSum`. -/
def smallFeaturesWeight (ld : LayerData) : ℚ :=
  if 0 < ld.smallFeatures then 7/10 else 0

/-- The accumulated `totalRisk` before safe-zone dampening. -/
def totalRisk (ld : LayerData) (currentLayer : ℤ) : ℚ :=
  overhangRisk ld + bridgeRisk ld + firstLayersRisk currentLayer + smallFeaturesRisk ld

/-- The accumulated `weightSum`. -/
def weightSum (ld : LayerData) (currentLayer : ℤ) : ℚ :=
  overhangWeight ld + bridgeWeight ld + firstLayersWeight currentLayer + smallFeaturesWeight ld

/-- Embeds `totalRisk` after the two safe-zone dampeners: `* (1 - 0.1)` when
`solidInfill > 0.8`, and `* (1 - 0.1)` again when support material is
present. -/
def dampedRisk (ld : LayerData) (currentLayer : ℤ) : ℚ :=
  let damped1 := if 8/10 < ld.solidInfill then totalRisk ld currentLayer * (1 - 1/10)
                 else totalRisk ld currentLayer
  if ld.supportMaterial then damped1 * (1 - 1/10) else damped1

/-- Embeds `SpaghettiDetector.calculateRiskScore` (quality.js lines 269-313):
`weightSum > 0 ? Math.min(totalRisk / weightSum, 1) : 0` after dampening. -/
def calculateRiskScore (ld : LayerData) (currentLayer : ℤ) : ℚ :=
  if 0 < weightSum ld currentLayer then
    min (dampedRisk ld currentLayer / weightSum ld currentLayer) 1
  else 0

/-- Alert severities appearing in `analyzeSensorPatterns`. -/
inductive Severity
  | high
  | medium
deriving DecidableEq

/-- Alert types appearing in `analyzeSensorPatterns`. -/
inductive SAlertType
  | vibrationAnomaly
  | temperatureInstability
  | lowFlow
  | erraticFlow
deriving DecidableEq

/-- A sensor-anomaly alert as pushed by `analyzeSensorPatterns`. -/
structure SAlert where
  type : SAlertType
  severity : Severity
  message : String
  confidence : ℚ
deriving DecidableEq

/-- The three sensor windows handed to `analyzeSensorPatterns`. -/
structure SensorWindows where
  vibration : List ℚ
  temperature : List ℚ
  filamentFlow : List ℚ

/-- Embeds `SpaghettiDetector.analyzeSensorPatterns` (quality.js lines 315-376).
Vibration: only when more than 10 samples, over the last 10 — more than 3
spikes above twice the window average fires a high/0.8 alert.
Temperature: only when more than 5 samples, variation of the last 5 above 8
fires a medium/0.6 alert.
Flow: only when more than 5 samples, over the last 5 — average below 100
fires a high/0.9 `low_flow` alert and variation above half the average fires
a medium/0.7 `erratic_flow` alert (both may fire). -/
def analyzeSensorPatterns (sd : SensorWindows) : List SAlert :=
  let vibrationAlerts :=
    if 10 < sd.vibration.length then
      let recentVibration := takeLast 10 sd.vibration
      let avgVibration := average recentVibration
      let vibrationSpikes := (recentVibration.filter fun v => avgVibration * 2 < v).length
      if 3 < vibrationSpikes then
        [⟨SAlertType.vibrationAnomaly, Severity.high,
          "Unusual vibration pattern detected - possible detached print", 4/5⟩]
      else []
    else []
  let temperatureAlerts :=
    if 5 < sd.temperature.length then
      let recentTemp := takeLast 5 sd.temperature
      if calculateVariationGT recentTemp 8 then
        [⟨SAlertType.temperatureInstability, Severity.medium,
          "Temperature instability may indicate print failure", 3/5⟩]
      else []
    else []
  let flowAlerts :=
    if 5 < sd.filamentFlow.length then
      let recentFlow := takeLast 5 sd.filamentFlow
      let avgFlow := average recentFlow
      (if avgFlow < 100 then
        [⟨SAlertType.lowFlow, Severity.high,
          "Low filament flow - possible jam or detachment", 9/10⟩]
       else []) ++
      (if calculateVariationGT recentFlow (avgFlow * (1/2)) then
        [⟨SAlertType.erraticFlow, Severity.medium,
          "Erratic extrusion pattern detected", 7/10⟩]
       else [])
    else []
  vibrationAlerts ++ temperatureAlerts ++ flowAlerts

/-- Embeds `SpaghettiDetector.getHistoricalAccuracy` (quality.js lines 540-544):
`truePositives / (truePositives + falsePositives)`, defaulting to 0.8 when
no feedback has been recorded. -/
def getHistoricalAccuracy (tp fp : ℕ) : ℚ :=
  if tp + fp = 0 then 4/5 else (tp : ℚ) / ((tp : ℚ) + (fp : ℚ))

/-- Embeds `SpaghettiDetector.calculateConfidence` (quality.js lines 477-494):
`riskScore*0.4 + highAlerts*0.3 + mediumAlerts*0.1 + visual*0.2`, multiplied
by the historical-accuracy factor, then clamped with `Math.min(·, 1)`. -/
def calculateConfidence (riskScore : ℚ) (sensorAlerts : List SAlert)
    (visualConfidence : ℚ) (tp fp : ℕ) : ℚ :=
  let highSeverityAlerts := sensorAlerts.filter fun a => a.severity = Severity.high
  let mediumSeverityAlerts := sensorAlerts.filter fun a => a.severity = Severity.medium
  let base := riskScore * (2/5)
      + ((highSeverityAlerts.length : ℚ) * (3/10) + (mediumSeverityAlerts.length : ℚ) * (1/10))
      + visualConfidence * (1/5)
  min (base * getHistoricalAccuracy tp fp) 1

/-- Recommendation actions of `generateRecommendation`. -/
inductive RecAction
  | immediateIntervention
  | monitorClosely
  | continueMonitoring
deriving DecidableEq

/-- Recommendation urgencies of `generateRecommendation`. -/
inductive Urgency
  | high
  | medium
  | low
deriving DecidableEq

/-- A recommendation as returned by `generateRecommendation`. -/
structure Recommendation where
  action : RecAction
  message : String
  urgency : Urgency
  suggestions : List String
deriving DecidableEq

/-- Embeds `SpaghettiDetector.generateRecommendation` (quality.js lines 496-531). -/
def generateRecommendation (riskScore : ℚ) (sensorAlerts : List SAlert) : Recommendation :=
  if 4/5 < riskScore ∨ sensorAlerts.any (fun a => a.severity == Severity.high) then
    ⟨RecAction.immediateIntervention,
     "High spaghetti risk detected - consider pausing print for inspection",
     Urgency.high,
     ["Check bed adhesion and first layer quality",
      "Verify hotend temperature stability",
      "Inspect for filament jams or tangles",
      "Consider adding support material for overhangs"]⟩
  else if 1/2 < riskScore then
    ⟨RecAction.monitorClosely,
     "Moderate spaghetti risk - monitor next few layers carefully",
     Urgency.medium,
     ["Watch for temperature fluctuations",
      "Check camera feed for anomalies",
      "Prepare to intervene if conditions worsen"]⟩
  else
    ⟨RecAction.continueMonitoring,
     "Low spaghetti risk - continue normal monitoring",
     Urgency.low,
     ["Maintain current print settings",
      "Continue regular monitoring intervals"]⟩

/-- One entry of the detector's bounded detection history. -/
structure Detection where
  timestamp : ℤ
  layer : ℤ
  riskScore : ℚ
  confidence : ℚ
deriving DecidableEq

/-- The mutable state of a `SpaghettiDetector`: the bounded detection history
and the process-wide feedback counters. -/
structure DetectorState where
  detectionHistory : List Detection
  truePositives : ℕ
  falsePositives : ℕ
deriving DecidableEq

/-- A freshly constructed `SpaghettiDetector` (constructor, quality.js
lines 221-241): empty history, zero feedback counters. -/
def initialDetector : DetectorState := ⟨[], 0, 0⟩

/-- Embeds `SpaghettiDetector.reportFeedback` (quality.js lines 546-554): increments
`truePositives` or `falsePositives` unconditionally; there is no check of the
detection history and no error path. -/
def reportFeedback (wasActualSpaghetti : Bool) (s : DetectorState) : DetectorState :=
  if wasActualSpaghetti then
    { s with truePositives := s.truePositives + 1 }
  else
    { s with falsePositives := s.falsePositives + 1 }

/-! ## PrintMonitor (`src/unnamed/part_006`)

The monitor owns the per-channel buffers, the session record, the alert list
and the layer tracker.  `runSpaghettiDetection` (lines 276-335) feeds
*simulated* (`Math.random()`-based) G-code data into the detector and only
mutates the detector history and, on high confidence, the alert list; it
never touches the data buffers or the layer state.  We therefore record its
invocations in two instrumentation counters — one for the layer-based
cadence call site (lines 269-272) and one for the call site at the end of
`updatePrinterData` (lines 100-103) — rather than embedding its
random-number simulation. -/

/-- Monitor alert types pushed by `checkRealTimeAlerts` and
`runSpaghettiDetection`. -/
inductive MAlertType
  | warning
  | error
  | spaghettiRisk
deriving DecidableEq

/-- An alert on the session alert list (part_006): `{type, message, value,
timestamp}`. -/
structure MAlert where
  type : MAlertType
  message : String
  value : ℚ
  timestamp : ℤ
deriving DecidableEq

/-- Print-session status values. -/
inductive SessionStatus
  | printing
  | completed
deriving DecidableEq

/-- The `currentPrint` record (id/name strings abstracted away; no claim
mentions them). -/
structure PrintSession where
  startTime : ℤ
  endTime : Option ℤ
  status : SessionStatus
  progress : ℤ
deriving DecidableEq

/-- A buffered position sample (`{...position, timestamp}`). -/
structure PositionSample where
  x : ℚ
  y : ℚ
  z : ℚ
  timestamp : ℤ
deriving DecidableEq

/-- The mutable state of a `PrintMonitor` (constructor, part_006 lines
6-19), plus the two instrumentation counters described above. -/
structure MonitorState where
  isMonitoring : Bool
  currentPrint : Option PrintSession
  temperature : List ℚ
  vibration : List ℚ
  filamentFlow : List ℚ
  positions : List PositionSample
  alerts : List MAlert
  currentLayer : ℤ
  layerCadenceRuns : ℕ
  updatePathRuns : ℕ
deriving DecidableEq

/-- A freshly constructed `PrintMonitor`. -/
def initialMonitor : MonitorState :=
  { isMonitoring := false
    currentPrint := none
    temperature := []
    vibration := []
    filamentFlow := []
    positions := []
    alerts := []
    currentLayer := 0
    layerCadenceRuns := 0
    updatePathRuns := 0 }

/-- Embeds `PrintMonitor.startMonitoring` (part_006 lines 21-37): sets the
monitoring flag, creates a fresh session record, clears the data buffers and
the alert list.  `currentLayer` (and the detector state) are *not* reset. -/
def startMonitoring (now : ℤ) (s : MonitorState) : MonitorState :=
  { s with
    isMonitoring := true
    currentPrint := some { startTime := now, endTime := none,
                           status := SessionStatus.printing, progress := 0 }
    temperature := []
    vibration := []
    filamentFlow := []
    positions := []
    alerts := [] }

/-- Embeds `PrintMonitor.stopMonitoring` (part_006 lines 39-49): finalizes the
session record and clears the monitoring flag (the returned final report is
not part of the state). -/
def stopMonitoring (now : ℤ) (s : MonitorState) : MonitorState :=
  { s with
    isMonitoring := false
    currentPrint := s.currentPrint.map fun p =>
      { p with endTime := some now, status := SessionStatus.completed } }

/-- An `updateSensorData` argument: the three channels the function buffers
(`!== undefined` tests become `Option.isSome`). -/
structure SensorInput where
  temperature : Option ℚ
  vibration : Option ℚ
  filamentFlow : Option ℚ

/-- Push an optional sample (`if (x !== undefined) buffer.push(x)`). -/
def pushOpt (x : Option ℚ) (l : List ℚ) : List ℚ :=
  match x with
  | some v => l ++ [v]
  | none => l

/-- The buffer-trimming step of `updateSensorData` (part_006 lines 67-72):
`if (buffer.length > 100) buffer = buffer.slice(-100)`. -/
def trim100 {α : Type _} (l : List α) : List α :=
  if 100 < l.length then takeLast 100 l else l

/-- Embeds `PrintMonitor.checkRealTimeAlerts` (part_006 lines 106-157): appends
threshold alerts for the incoming sample, then prunes every alert older than
one hour (`timestamp > Date.now() - 3600000`) from the whole list.  A
comparison against an absent (`undefined`) field is false, so each rule
requires its field to be present. -/
def checkRealTimeAlerts (d : SensorInput) (now : ℤ) (s : MonitorState) : MonitorState :=
  let highTemp :=
    match d.temperature with
    | some t => if 250 < t then [MAlert.mk MAlertType.warning "High temperature detected" t now] else []
    | none => []
  let lowTemp :=
    match d.temperature with
    | some t =>
        if t < 180 ∧ (s.currentPrint.map PrintSession.status) = some SessionStatus.printing then
          [MAlert.mk MAlertType.error "Temperature drop detected" t now]
        else []
    | none => []
  let highVibration :=
    match d.vibration with
    | some v => if 80 < v then [MAlert.mk MAlertType.warning "Excessive vibration detected" v now] else []
    | none => []
  let lowFlow :=
    match d.filamentFlow with
    | some f => if f < 100 then [MAlert.mk MAlertType.error "Possible filament jam or runout" f now] else []
    | none => []
  let appended := s.alerts ++ (highTemp ++ lowTemp ++ highVibration ++ lowFlow)
  { s with alerts := appended.filter fun a => now - 3600000 < a.timestamp }

/-- Embeds `PrintMonitor.updateSensorData` (part_006 lines 51-76): no-op while not
monitoring; otherwise buffers each present channel sample, trims *all four*
buffers to the last 100 entries, and runs `checkRealTimeAlerts`. -/
def updateSensorData (d : SensorInput) (now : ℤ) (s : MonitorState) : MonitorState :=
  if s.isMonitoring = false then s
  else
    checkRealTimeAlerts d now
      { s with
        temperature := trim100 (pushOpt d.temperature s.temperature)
        vibration := trim100 (pushOpt d.vibration s.vibration)
        filamentFlow := trim100 (pushOpt d.filamentFlow s.filamentFlow)
        positions := trim100 s.positions }

/-- A raw position from printer telemetry. -/
structure PosXYZ where
  x : ℚ
  y : ℚ
  z : ℚ

/-- An `updatePrinterData` argument: optional position and optional hotend
temperature. -/
structure PrinterInput where
  position : Option PosXYZ
  temperatureHotend : Option ℚ

/-- Embeds `PrintMonitor.updateLayerTracking` (part_006 lines 261-274):
`newLayer = Math.floor(z / 0.2)`; only on `newLayer > currentLayer` the
layer advances, and on critical layers (`newLayer ≤ 5` or a multiple of 20)
the layer-based cadence runs a spaghetti detection (counted in
`layerCadenceRuns`). -/
def updateLayerTracking (currentZ : ℚ) (s : MonitorState) : MonitorState :=
  if s.currentLayer < ⌊currentZ / (1/5 : ℚ)⌋ then
    if ⌊currentZ / (1/5 : ℚ)⌋ ≤ 5 ∨ ⌊currentZ / (1/5 : ℚ)⌋ % 20 = 0 then
      { s with currentLayer := ⌊currentZ / (1/5 : ℚ)⌋
               layerCadenceRuns := s.layerCadenceRuns + 1 }
    else
      { s with currentLayer := ⌊currentZ / (1/5 : ℚ)⌋ }
  else s

/-- JS `Math.round` for rationals: half-up, i.e. `⌊x + 1/2⌋`. -/
def jsRound (x : ℚ) : ℤ := ⌊x + 1/2⌋

/-- Embeds `PrintMonitor.estimateProgress` (part_006 lines 159-168):
`progress = Math.round(Math.min(100, z / 200 * 100))` whenever a session and
a position are present. -/
def estimateProgress (d : PrinterInput) (s : MonitorState) : MonitorState :=
  match s.currentPrint, d.position with
  | some p, some pos =>
      { s with currentPrint := some { p with progress := jsRound (min 100 (pos.z / 200 * 100)) } }
  | _, _ => s

/-- First stage of `updatePrinterData` (part_006 lines 82-90): when a
position is present, push it (with timestamp) onto the positions buffer and
run `updateLayerTracking` on its z coordinate. -/
def pushPositionAndTrack (d : PrinterInput) (now : ℤ) (s : MonitorState) : MonitorState :=
  match d.position with
  | some pos =>
      updateLayerTracking pos.z
        { s with positions := s.positions ++ [⟨pos.x, pos.y, pos.z, now⟩] }
  | none => s

/-- Second stage of `updatePrinterData` (part_006 lines 92-95): when hotend
temperature is present, push it onto the temperature buffer (untrimmed). -/
def pushHotendTemperature (d : PrinterInput) (s : MonitorState) : MonitorState :=
  match d.temperatureHotend with
  | some h => { s with temperature := s.temperature ++ [h] }
  | none => s

/-- Final stage of `updatePrinterData` (part_006 lines 100-103): run a
spaghetti detection whenever `currentLayer > 0 && currentLayer % 10 === 0`
(counted in `updatePathRuns`). -/
def runDetectionOnUpdatePath (s : MonitorState) : MonitorState :=
  if 0 < s.currentLayer ∧ s.currentLayer % 10 = 0 then
    { s with updatePathRuns := s.updatePathRuns + 1 }
  else s

/-- Embeds `PrintMonitor.updatePrinterData` (part_006 lines 78-104): no-op while not
monitoring; otherwise push the position sample and run layer tracking, push
the hotend temperature, update the progress estimate, and finally run the
update-path detection check.  Note that no buffer is trimmed here. -/
def updatePrinterData (d : PrinterInput) (now : ℤ) (s : MonitorState) : MonitorState :=
  if s.isMonitoring = false then s
  else
    runDetectionOnUpdatePath (estimateProgress d (pushHotendTemperature d (pushPositionAndTrack d now s)))

/-- The monitoring part of `PrintMonitor.getCurrentStatus` (part_006 lines
170-189).  When idle the source returns a bare `{monitoring: false}`; we
fill the remaining fields with defaults in that case. -/
structure MonitorStatus where
  monitoring : Bool
  recentAlerts : List MAlert
  runtime : ℤ
  dataPointsTemperature : ℕ
  dataPointsVibration : ℕ
  dataPointsFilamentFlow : ℕ
deriving DecidableEq

/-- Embeds `PrintMonitor.getCurrentStatus` (part_006 lines 170-189): while
monitoring, reports runtime, the **last 5 alerts unfiltered**
(`this.alerts.slice(-5)` — no pruning happens here) and buffer sizes. -/
def getCurrentStatus (now : ℤ) (s : MonitorState) : MonitorStatus :=
  match s.isMonitoring, s.currentPrint with
  | true, some p =>
      { monitoring := true
        recentAlerts := takeLast 5 s.alerts
        runtime := now - p.startTime
        dataPointsTemperature := s.temperature.length
        dataPointsVibration := s.vibration.length
        dataPointsFilamentFlow := s.filamentFlow.length }
  | _, _ =>
      { monitoring := false, recentAlerts := [], runtime := 0
        dataPointsTemperature := 0, dataPointsVibration := 0, dataPointsFilamentFlow := 0 }

/-! ## QualityAnalyzer (`src/src/analysis/quality.js`, lines 2-219)

The analyzer's scores pass through `Math.sqrt`, so this part of the
embedding lives in `ℝ` (and is noncomputable only because `Real.sqrt` is).
The `issues`/`recommendations` string lists do not feed into any score or
metric and are not referenced by any claim, so the result records are
embedded with their numeric fields.  `extractLayerHeights` performs regex
parsing of G-code text; `generateQualityReport` below takes its *output*
(the list of layer-height deltas, `[0.2]` for empty G-code input) as the
`layerHeights` parameter. -/

noncomputable section

/-- Mean of a list of reals (JS `reduce((a,b) => a+b, 0) / length`). -/
def rAverage (l : List ℝ) : ℝ := l.sum / (l.length : ℝ)

/-- Embeds `QualityAnalyzer.calculateVariation` (quality.js lines 178-183):
population standard deviation, `0` for the empty list. -/
def calculateVariationR (l : List ℝ) : ℝ :=
  if l.length = 0 then 0
  else Real.sqrt (((l.map fun x => (x - rAverage l) ^ 2).sum) / (l.length : ℝ))

/-- Result of `analyzeTemperatureProfile` (numeric field). -/
structure TempAnalysis where
  stability : ℝ

/-- Embeds `QualityAnalyzer.analyzeTemperatureProfile` (quality.js lines 14-33):
`stability = 100 - tempVariation * 10`. -/
def analyzeTemperatureProfile (temperatureData : List ℝ) : TempAnalysis :=
  ⟨100 - calculateVariationR temperatureData * 10⟩

/-- Result of `analyzeVibrationData` / `analyzeLayerQuality` (numeric
field). -/
structure ScoreAnalysis where
  score : ℝ

/-- Embeds `QualityAnalyzer.analyzeVibrationData` (quality.js lines 35-54):
`score = Math.max(0, 100 - avgVibration)`. -/
def analyzeVibrationData (vibrationData : List ℝ) : ScoreAnalysis :=
  ⟨max 0 (100 - rAverage vibrationData)⟩

/-- Embeds `QualityAnalyzer.analyzeLayerQuality` (quality.js lines 56-82): starts
at 100, −20 when the layer-height variation exceeds 0.05, −15 when the
filament-flow variation exceeds 10 (only when a flow series is present),
floored at 0. -/
def analyzeLayerQuality (layerHeights : List ℝ) (filamentFlow : Option (List ℝ)) :
    ScoreAnalysis :=
  let afterHeight : ℝ := if 1/20 < calculateVariationR layerHeights then 100 - 20 else 100
  let afterFlow : ℝ :=
    match filamentFlow with
    | some flow => if 10 < calculateVariationR flow then afterHeight - 15 else afterHeight
    | none => afterHeight
  ⟨max 0 afterFlow⟩

/-- JS `x || d` on numbers: `0` is falsy and is replaced by the default. -/
def jsOr (x d : ℝ) : ℝ := if x = 0 then d else x

/-- JS `Math.round` (half-up) for reals. -/
def jsRoundR (x : ℝ) : ℤ := ⌊x + 1/2⌋

/-- The `metrics` object of a quality report. -/
structure QualityMetrics where
  temperatureStability : ℝ
  vibrationLevel : ℝ
  layerQuality : ℝ

/-- The numeric content of a quality report. -/
structure QualityReport where
  overallScore : ℤ
  metrics : QualityMetrics

/-- Embeds `QualityAnalyzer.generateQualityReport` (quality.js lines 115-168):
`overallScore = Math.round(mean(stability || 100, vibScore || 100,
layerScore || 100))` while `metrics` reports `stability || 0`,
`vibScore || 0`, `layerScore || 0`. -/
def generateQualityReport (temperatures vibration : List ℝ)
    (filamentFlow : Option (List ℝ)) (layerHeights : List ℝ) : QualityReport :=
  let tempAnalysis := analyzeTemperatureProfile temperatures
  let vibAnalysis := analyzeVibrationData vibration
  let layerAnalysis := analyzeLayerQuality layerHeights filamentFlow
  let scores := [jsOr tempAnalysis.stability 100, jsOr vibAnalysis.score 100,
                 jsOr layerAnalysis.score 100]
  let overallScore := scores.sum / (scores.length : ℝ)
  { overallScore := jsRoundR overallScore
    metrics :=
      { temperatureStability := jsOr tempAnalysis.stability 0
        vibrationLevel := jsOr vibAnalysis.score 0
        layerQuality := jsOr layerAnalysis.score 0 } }

end

/-! ## Helper lemmas: risk-score and confidence bounds -/

lemma overhangRisk_nonneg (ld : LayerData) : 0 ≤ overhangRisk ld := by
  unfold overhangRisk
  split_ifs with h
  · exact mul_nonneg (le_min (div_nonneg h.le (by norm_num)) zero_le_one) (by norm_num)
  · exact le_rfl

lemma bridgeRisk_nonneg (ld : LayerData) : 0 ≤ bridgeRisk ld := by
  unfold bridgeRisk
  split_ifs with h
  · exact mul_nonneg (le_min (div_nonneg h.le (by norm_num)) zero_le_one) (by norm_num)
  · exact le_rfl

lemma firstLayersRisk_nonneg (layer : ℤ) : 0 ≤ firstLayersRisk layer := by
  unfold firstLayersRisk
  split_ifs <;> norm_num

lemma smallFeaturesRisk_nonneg (ld : LayerData) : 0 ≤ smallFeaturesRisk ld := by
  unfold smallFeaturesRisk
  split_ifs with h
  · exact mul_nonneg (le_min (div_nonneg h.le (by norm_num)) zero_le_one) (by norm_num)
  · exact le_rfl

lemma totalRisk_nonneg (ld : LayerData) (layer : ℤ) : 0 ≤ totalRisk ld layer := by
  unfold totalRisk
  have h1 := overhangRisk_nonneg ld
  have h2 := bridgeRisk_nonneg ld
  have h3 := firstLayersRisk_nonneg layer
  have h4 := smallFeaturesRisk_nonneg ld
  linarith

lemma dampedRisk_nonneg (ld : LayerData) (layer : ℤ) : 0 ≤ dampedRisk ld layer := by
  unfold dampedRisk
  have h := totalRisk_nonneg ld layer
  split_ifs <;> nlinarith

lemma calculateRiskScore_nonneg (ld : LayerData) (layer : ℤ) :
    0 ≤ calculateRiskScore ld layer := by
  unfold calculateRiskScore
  split_ifs with h
  · exact le_min (div_nonneg (dampedRisk_nonneg ld layer) h.le) zero_le_one
  · exact le_rfl

lemma calculateRiskScore_le_one (ld : LayerData) (layer : ℤ) :
    calculateRiskScore ld layer ≤ 1 := by
  unfold calculateRiskScore
  split_ifs with h
  · exact min_le_right _ _
  · exact zero_le_one

lemma getHistoricalAccuracy_nonneg (tp fp : ℕ) : 0 ≤ getHistoricalAccuracy tp fp := by
  unfold getHistoricalAccuracy
  split_ifs
  · norm_num
  · positivity

lemma getHistoricalAccuracy_le_one (tp fp : ℕ) : getHistoricalAccuracy tp fp ≤ 1 := by
  unfold getHistoricalAccuracy
  split_ifs with h
  · norm_num
  · have h0 : 0 < tp + fp := Nat.pos_of_ne_zero h
    have h1 : (0 : ℚ) < (tp : ℚ) + (fp : ℚ) := by exact_mod_cast h0
    rw [div_le_one h1]
    exact le_add_of_nonneg_right (by positivity)

lemma calculateConfidence_nonneg (riskScore : ℚ) (alerts : List SAlert)
    (visual : ℚ) (tp fp : ℕ) (hrs : 0 ≤ riskScore) (hv : 0 ≤ visual) :
    0 ≤ calculateConfidence riskScore alerts visual tp fp := by
  simp only [calculateConfidence]
  refine le_min (mul_nonneg ?_ (getHistoricalAccuracy_nonneg tp fp)) zero_le_one
  have hh : (0 : ℚ) ≤ ((alerts.filter fun a => a.severity = Severity.high).length : ℚ) := by
    positivity
  have hm : (0 : ℚ) ≤ ((alerts.filter fun a => a.severity = Severity.medium).length : ℚ) := by
    positivity
  nlinarith

lemma calculateConfidence_le_one (riskScore : ℚ) (alerts : List SAlert)
    (visual : ℚ) (tp fp : ℕ) :
    calculateConfidence riskScore alerts visual tp fp ≤ 1 := by
  simp only [calculateConfidence]
  exact min_le_right _ _

/-! ## Claim C1 -/

/-- C1: for every structural snapshot with non-negative
overhang/bridge/small-feature counts and `solidInfillFraction ∈ [0,1]`,
every sensor window, every external visual confidence in `[0,1]` and every
pair of feedback counters, `calculateRiskScore` lies in `[0,1]` and the
fused `calculateConfidence` lies in `[0,1]`. -/
theorem claim_C1 (ld : LayerData) (layer : ℤ) (w : SensorWindows)
    (visual : ℚ) (tp fp : ℕ)
    (hov : 0 ≤ ld.overhangs) (hbr : 0 ≤ ld.bridges) (hsf : 0 ≤ ld.smallFeatures)
    (hsi0 : 0 ≤ ld.solidInfill) (hsi1 : ld.solidInfill ≤ 1)
    (hv0 : 0 ≤ visual) (hv1 : visual ≤ 1) :
    0 ≤ calculateRiskScore ld layer ∧ calculateRiskScore ld layer ≤ 1 ∧
    0 ≤ calculateConfidence (calculateRiskScore ld layer) (analyzeSensorPatterns w)
          visual tp fp ∧
    calculateConfidence (calculateRiskScore ld layer) (analyzeSensorPatterns w)
          visual tp fp ≤ 1 :=
  ⟨calculateRiskScore_nonneg ld layer, calculateRiskScore_le_one ld layer,
   calculateConfidence_nonneg _ _ _ _ _ (calculateRiskScore_nonneg ld layer) hv0,
   calculateConfidence_le_one _ _ _ _ _⟩

/-- Witness for C1 at a concrete snapshot (2 overhangs, 1 bridge, 3 small
features, half solid infill, no support, layer 2, empty windows, visual
confidence 1/2, feedback 3/1). -/
theorem claim_C1_witness :
    (0 ≤ (LayerData.mk 2 1 3 (1/2) false).overhangs ∧
     0 ≤ (LayerData.mk 2 1 3 (1/2) false).bridges ∧
     0 ≤ (LayerData.mk 2 1 3 (1/2) false).smallFeatures ∧
     0 ≤ (LayerData.mk 2 1 3 (1/2) false).solidInfill ∧
     (LayerData.mk 2 1 3 (1/2) false).solidInfill ≤ 1 ∧
     0 ≤ (1/2 : ℚ) ∧ (1/2 : ℚ) ≤ 1) ∧
    (0 ≤ calculateRiskScore (LayerData.mk 2 1 3 (1/2) false) 2 ∧
     calculateRiskScore (LayerData.mk 2 1 3 (1/2) false) 2 ≤ 1 ∧
     0 ≤ calculateConfidence (calculateRiskScore (LayerData.mk 2 1 3 (1/2) false) 2)
           (analyzeSensorPatterns ⟨[], [], []⟩) (1/2) 3 1 ∧
     calculateConfidence (calculateRiskScore (LayerData.mk 2 1 3 (1/2) false) 2)
           (analyzeSensorPatterns ⟨[], [], []⟩) (1/2) 3 1 ≤ 1) :=
  ⟨by norm_num,
   claim_C1 (LayerData.mk 2 1 3 (1/2) false) 2 ⟨[], [], []⟩ (1/2) 3 1
     (by norm_num) (by norm_num) (by norm_num) (by norm_num) (by norm_num)
     (by norm_num) (by norm_num)⟩

/-! ## Helper lemmas: monitor state updates -/

/-- Apply a sequence of printer-telemetry updates (left to right). -/
def applyPrinterUpdates (now : ℤ) (ds : List PrinterInput) (s : MonitorState) : MonitorState :=
  ds.foldl (fun st d => updatePrinterData d now st) s

/-- Record a sequence of temperature samples through `updateSensorData`. -/
def recordTemperatureSamples (now : ℤ) (vs : List ℚ) (s : MonitorState) : MonitorState :=
  vs.foldl (fun st v => updateSensorData ⟨some v, none, none⟩ now st) s

lemma trim100_eq_drop {α : Type _} (l : List α) :
    trim100 l = l.drop (l.length - 100) := by
  unfold trim100 takeLast
  split_ifs with h
  · rfl
  · have h0 : l.length - 100 = 0 := by omega
    rw [h0, List.drop_zero]

lemma trim100_length_le {α : Type _} (l : List α) : (trim100 l).length ≤ 100 := by
  rw [trim100_eq_drop, List.length_drop]
  omega

lemma trim100_append {α : Type _} (l m : List α) :
    trim100 (trim100 l ++ m) = trim100 (l ++ m) := by
  rcases le_or_lt l.length 100 with h | h
  · have h0 : l.length - 100 = 0 := by omega
    rw [trim100_eq_drop l, h0, List.drop_zero]
  · rw [trim100_eq_drop (trim100 l ++ m), trim100_eq_drop (l ++ m), trim100_eq_drop l]
    rw [List.length_append, List.length_drop, List.length_append]
    have h1 : l.length - (l.length - 100) + m.length - 100 = m.length := by omega
    rw [h1]
    have h2 : l.length + m.length - 100 = l.length - 100 + m.length := by omega
    rw [h2]
    have e1 : (l ++ m).drop (l.length - 100 + m.length)
        = ((l ++ m).drop (l.length - 100)).drop m.length :=
      (List.drop_drop m.length (l.length - 100) (l ++ m)).symm
    have e2 : (l ++ m).drop (l.length - 100) = l.drop (l.length - 100) ++ m :=
      List.drop_append_of_le_length (by omega)
    rw [e1, e2]

lemma trim100_of_length_le {α : Type _} (l : List α) (h : l.length ≤ 100) :
    trim100 l = l := by
  rw [trim100_eq_drop]
  have h0 : l.length - 100 = 0 := by omega
  rw [h0, List.drop_zero]

lemma checkRealTimeAlerts_temperature (d : SensorInput) (now : ℤ) (s : MonitorState) :
    (checkRealTimeAlerts d now s).temperature = s.temperature := rfl

lemma checkRealTimeAlerts_vibration (d : SensorInput) (now : ℤ) (s : MonitorState) :
    (checkRealTimeAlerts d now s).vibration = s.vibration := rfl

lemma checkRealTimeAlerts_filamentFlow (d : SensorInput) (now : ℤ) (s : MonitorState) :
    (checkRealTimeAlerts d now s).filamentFlow = s.filamentFlow := rfl

lemma checkRealTimeAlerts_positions (d : SensorInput) (now : ℤ) (s : MonitorState) :
    (checkRealTimeAlerts d now s).positions = s.positions := rfl

lemma checkRealTimeAlerts_isMonitoring (d : SensorInput) (now : ℤ) (s : MonitorState) :
    (checkRealTimeAlerts d now s).isMonitoring = s.isMonitoring := rfl

lemma updateSensorData_monitoring_eq (d : SensorInput) (now : ℤ) (s : MonitorState)
    (h : s.isMonitoring = true) :
    updateSensorData d now s =
      checkRealTimeAlerts d now
        { s with
          temperature := trim100 (pushOpt d.temperature s.temperature)
          vibration := trim100 (pushOpt d.vibration s.vibration)
          filamentFlow := trim100 (pushOpt d.filamentFlow s.filamentFlow)
          positions := trim100 s.positions } := by
  unfold updateSensorData
  rw [if_neg]
  simp [h]

lemma updateSensorData_isMonitoring (d : SensorInput) (now : ℤ) (s : MonitorState) :
    (updateSensorData d now s).isMonitoring = s.isMonitoring := by
  unfold updateSensorData
  split_ifs <;> rfl

lemma updateSensorData_temperature_push (v : ℚ) (now : ℤ) (s : MonitorState)
    (h : s.isMonitoring = true) :
    (updateSensorData ⟨some v, none, none⟩ now s).temperature
      = trim100 (s.temperature ++ [v]) := by
  rw [updateSensorData_monitoring_eq _ _ _ h, checkRealTimeAlerts_temperature]
  rfl

lemma updateLayerTracking_positions (z : ℚ) (s : MonitorState) :
    (updateLayerTracking z s).positions = s.positions := by
  unfold updateLayerTracking
  split_ifs <;> rfl

lemma updateLayerTracking_isMonitoring (z : ℚ) (s : MonitorState) :
    (updateLayerTracking z s).isMonitoring = s.isMonitoring := by
  unfold updateLayerTracking
  split_ifs <;> rfl

lemma updateLayerTracking_updatePathRuns (z : ℚ) (s : MonitorState) :
    (updateLayerTracking z s).updatePathRuns = s.updatePathRuns := by
  unfold updateLayerTracking
  split_ifs <;> rfl

lemma updateLayerTracking_currentLayer (z : ℚ) (s : MonitorState) :
    (updateLayerTracking z s).currentLayer =
      if s.currentLayer < ⌊z / (1/5 : ℚ)⌋ then ⌊z / (1/5 : ℚ)⌋ else s.currentLayer := by
  unfold updateLayerTracking
  split_ifs <;> rfl

lemma updateLayerTracking_currentLayer_le (z : ℚ) (s : MonitorState) :
    s.currentLayer ≤ (updateLayerTracking z s).currentLayer := by
  rw [updateLayerTracking_currentLayer]
  split_ifs with h
  · exact h.le
  · exact le_rfl

lemma updateLayerTracking_eq_self (z : ℚ) (s : MonitorState)
    (h : ⌊z / (1/5 : ℚ)⌋ ≤ s.currentLayer) :
    updateLayerTracking z s = s := by
  unfold updateLayerTracking
  rw [if_neg (not_lt.mpr h)]

lemma estimateProgress_positions (d : PrinterInput) (s : MonitorState) :
    (estimateProgress d s).positions = s.positions := by
  unfold estimateProgress
  cases s.currentPrint <;> cases d.position <;> rfl

lemma estimateProgress_isMonitoring (d : PrinterInput) (s : MonitorState) :
    (estimateProgress d s).isMonitoring = s.isMonitoring := by
  unfold estimateProgress
  cases s.currentPrint <;> cases d.position <;> rfl

lemma estimateProgress_currentLayer (d : PrinterInput) (s : MonitorState) :
    (estimateProgress d s).currentLayer = s.currentLayer := by
  unfold estimateProgress
  cases s.currentPrint <;> cases d.position <;> rfl

lemma estimateProgress_layerCadenceRuns (d : PrinterInput) (s : MonitorState) :
    (estimateProgress d s).layerCadenceRuns = s.layerCadenceRuns := by
  unfold estimateProgress
  cases s.currentPrint <;> cases d.position <;> rfl

lemma estimateProgress_updatePathRuns (d : PrinterInput) (s : MonitorState) :
    (estimateProgress d s).updatePathRuns = s.updatePathRuns := by
  unfold estimateProgress
  cases s.currentPrint <;> cases d.position <;> rfl

lemma pushHotendTemperature_positions (d : PrinterInput) (s : MonitorState) :
    (pushHotendTemperature d s).positions = s.positions := by
  unfold pushHotendTemperature
  cases d.temperatureHotend <;> rfl

lemma pushHotendTemperature_isMonitoring (d : PrinterInput) (s : MonitorState) :
    (pushHotendTemperature d s).isMonitoring = s.isMonitoring := by
  unfold pushHotendTemperature
  cases d.temperatureHotend <;> rfl

lemma pushHotendTemperature_currentLayer (d : PrinterInput) (s : MonitorState) :
    (pushHotendTemperature d s).currentLayer = s.currentLayer := by
  unfold pushHotendTemperature
  cases d.temperatureHotend <;> rfl

lemma pushHotendTemperature_layerCadenceRuns (d : PrinterInput) (s : MonitorState) :
    (pushHotendTemperature d s).layerCadenceRuns = s.layerCadenceRuns := by
  unfold pushHotendTemperature
  cases d.temperatureHotend <;> rfl

lemma pushHotendTemperature_updatePathRuns (d : PrinterInput) (s : MonitorState) :
    (pushHotendTemperature d s).updatePathRuns = s.updatePathRuns := by
  unfold pushHotendTemperature
  cases d.temperatureHotend <;> rfl

lemma runDetectionOnUpdatePath_positions (s : MonitorState) :
    (runDetectionOnUpdatePath s).positions = s.positions := by
  unfold runDetectionOnUpdatePath
  split_ifs <;> rfl

lemma runDetectionOnUpdatePath_isMonitoring (s : MonitorState) :
    (runDetectionOnUpdatePath s).isMonitoring = s.isMonitoring := by
  unfold runDetectionOnUpdatePath
  split_ifs <;> rfl

lemma runDetectionOnUpdatePath_currentLayer (s : MonitorState) :
    (runDetectionOnUpdatePath s).currentLayer = s.currentLayer := by
  unfold runDetectionOnUpdatePath
  split_ifs <;> rfl

lemma runDetectionOnUpdatePath_layerCadenceRuns (s : MonitorState) :
    (runDetectionOnUpdatePath s).layerCadenceRuns = s.layerCadenceRuns := by
  unfold runDetectionOnUpdatePath
  split_ifs <;> rfl

lemma runDetectionOnUpdatePath_updatePathRuns (s : MonitorState) :
    (runDetectionOnUpdatePath s).updatePathRuns =
      (if 0 < s.currentLayer ∧ s.currentLayer % 10 = 0
       then s.updatePathRuns + 1 else s.updatePathRuns) := by
  unfold runDetectionOnUpdatePath
  split_ifs <;> rfl

lemma pushPositionAndTrack_isMonitoring (d : PrinterInput) (now : ℤ) (s : MonitorState) :
    (pushPositionAndTrack d now s).isMonitoring = s.isMonitoring := by
  unfold pushPositionAndTrack
  cases d.position <;> simp [updateLayerTracking_isMonitoring]

lemma pushPositionAndTrack_updatePathRuns (d : PrinterInput) (now : ℤ) (s : MonitorState) :
    (pushPositionAndTrack d now s).updatePathRuns = s.updatePathRuns := by
  unfold pushPositionAndTrack
  cases d.position <;> simp [updateLayerTracking_updatePathRuns]

lemma pushPositionAndTrack_currentLayer_le (d : PrinterInput) (now : ℤ) (s : MonitorState) :
    s.currentLayer ≤ (pushPositionAndTrack d now s).currentLayer := by
  unfold pushPositionAndTrack
  cases d.position with
  | none => exact le_rfl
  | some pos =>
      exact updateLayerTracking_currentLayer_le pos.z
        { s with positions := s.positions ++ [⟨pos.x, pos.y, pos.z, now⟩] }

lemma pushPositionAndTrack_positions_some (d : PrinterInput) (now : ℤ) (s : MonitorState)
    (pos : PosXYZ) (hp : d.position = some pos) :
    (pushPositionAndTrack d now s).positions
      = s.positions ++ [⟨pos.x, pos.y, pos.z, now⟩] := by
  unfold pushPositionAndTrack
  rw [hp]
  exact updateLayerTracking_positions _ _

lemma pushPositionAndTrack_frozen (d : PrinterInput) (now : ℤ) (s : MonitorState)
    (hp : ∀ pos : PosXYZ, d.position = some pos → ⌊pos.z / (1/5 : ℚ)⌋ ≤ s.currentLayer) :
    (pushPositionAndTrack d now s).currentLayer = s.currentLayer ∧
    (pushPositionAndTrack d now s).layerCadenceRuns = s.layerCadenceRuns := by
  cases hpos : d.position with
  | none =>
      unfold pushPositionAndTrack
      rw [hpos]
      exact ⟨rfl, rfl⟩
  | some pos =>
      unfold pushPositionAndTrack
      rw [hpos]
      have h := updateLayerTracking_eq_self pos.z
        { s with positions := s.positions ++ [⟨pos.x, pos.y, pos.z, now⟩] } (hp pos hpos)
      show (updateLayerTracking pos.z
          { s with positions := s.positions ++ [⟨pos.x, pos.y, pos.z, now⟩] }).currentLayer
            = s.currentLayer ∧
        (updateLayerTracking pos.z
          { s with positions := s.positions ++ [⟨pos.x, pos.y, pos.z, now⟩] }).layerCadenceRuns
            = s.layerCadenceRuns
      rw [h]
      exact ⟨rfl, rfl⟩

lemma updatePrinterData_monitoring_eq (d : PrinterInput) (now : ℤ) (s : MonitorState)
    (h : s.isMonitoring = true) :
    updatePrinterData d now s =
      runDetectionOnUpdatePath
        (estimateProgress d (pushHotendTemperature d (pushPositionAndTrack d now s))) := by
  unfold updatePrinterData
  rw [if_neg]
  simp [h]

lemma updatePrinterData_isMonitoring (d : PrinterInput) (now : ℤ) (s : MonitorState) :
    (updatePrinterData d now s).isMonitoring = s.isMonitoring := by
  unfold updatePrinterData
  split_ifs with h
  · rfl
  · rw [runDetectionOnUpdatePath_isMonitoring, estimateProgress_isMonitoring,
        pushHotendTemperature_isMonitoring, pushPositionAndTrack_isMonitoring]

lemma updatePrinterData_currentLayer_le (d : PrinterInput) (now : ℤ) (s : MonitorState) :
    s.currentLayer ≤ (updatePrinterData d now s).currentLayer := by
  unfold updatePrinterData
  split_ifs with h
  · exact le_rfl
  · rw [runDetectionOnUpdatePath_currentLayer, estimateProgress_currentLayer,
        pushHotendTemperature_currentLayer]
    exact pushPositionAndTrack_currentLayer_le d now s

lemma updatePrinterData_positions_some (d : PrinterInput) (now : ℤ) (s : MonitorState)
    (h : s.isMonitoring = true) (pos : PosXYZ) (hp : d.position = some pos) :
    (updatePrinterData d now s).positions
      = s.positions ++ [⟨pos.x, pos.y, pos.z, now⟩] := by
  rw [updatePrinterData_monitoring_eq d now s h, runDetectionOnUpdatePath_positions,
      estimateProgress_positions, pushHotendTemperature_positions,
      pushPositionAndTrack_positions_some d now s pos hp]

lemma updatePrinterData_frozen (d : PrinterInput) (now : ℤ) (s : MonitorState)
    (hm : s.isMonitoring = true)
    (hp : ∀ pos : PosXYZ, d.position = some pos → ⌊pos.z / (1/5 : ℚ)⌋ ≤ s.currentLayer) :
    (updatePrinterData d now s).currentLayer = s.currentLayer ∧
    (updatePrinterData d now s).layerCadenceRuns = s.layerCadenceRuns ∧
    (updatePrinterData d now s).isMonitoring = true := by
  obtain ⟨h1, h2⟩ := pushPositionAndTrack_frozen d now s hp
  rw [updatePrinterData_monitoring_eq d now s hm]
  refine ⟨?_, ?_, ?_⟩
  · rw [runDetectionOnUpdatePath_currentLayer, estimateProgress_currentLayer,
        pushHotendTemperature_currentLayer, h1]
  · rw [runDetectionOnUpdatePath_layerCadenceRuns, estimateProgress_layerCadenceRuns,
        pushHotendTemperature_layerCadenceRuns, h2]
  · rw [runDetectionOnUpdatePath_isMonitoring, estimateProgress_isMonitoring,
        pushHotendTemperature_isMonitoring, pushPositionAndTrack_isMonitoring]
    exact hm

lemma updatePrinterData_frozen10 (d : PrinterInput) (now : ℤ) (s : MonitorState)
    (hm : s.isMonitoring = true)
    (hp : ∀ pos : PosXYZ, d.position = some pos → ⌊pos.z / (1/5 : ℚ)⌋ ≤ s.currentLayer)
    (h10 : ¬(0 < s.currentLayer ∧ s.currentLayer % 10 = 0)) :
    (updatePrinterData d now s).updatePathRuns = s.updatePathRuns := by
  obtain ⟨h1, h2⟩ := pushPositionAndTrack_frozen d now s hp
  rw [updatePrinterData_monitoring_eq d now s hm]
  rw [runDetectionOnUpdatePath_updatePathRuns, estimateProgress_currentLayer,
      pushHotendTemperature_currentLayer, h1, if_neg h10,
      estimateProgress_updatePathRuns, pushHotendTemperature_updatePathRuns,
      pushPositionAndTrack_updatePathRuns]

lemma recordTemperatureSamples_temperature (now : ℤ) (vs : List ℚ) :
    ∀ s : MonitorState, s.isMonitoring = true → s.temperature.length ≤ 100 →
      (recordTemperatureSamples now vs s).temperature = trim100 (s.temperature ++ vs) := by
  induction vs with
  | nil =>
      intro s h hlen
      simp only [recordTemperatureSamples, List.foldl_nil, List.append_nil]
      exact (trim100_of_length_le s.temperature hlen).symm
  | cons v vs ih =>
      intro s h hlen
      have step : recordTemperatureSamples now (v :: vs) s
          = recordTemperatureSamples now vs (updateSensorData ⟨some v, none, none⟩ now s) := rfl
      have hm : (updateSensorData ⟨some v, none, none⟩ now s).isMonitoring = true := by
        rw [updateSensorData_isMonitoring]; exact h
      have ht := updateSensorData_temperature_push v now s h
      have hl : (updateSensorData ⟨some v, none, none⟩ now s).temperature.length ≤ 100 := by
        rw [ht]; exact trim100_length_le _
      rw [step, ih _ hm hl, ht, trim100_append, List.append_assoc]
      rfl

lemma applyPrinterUpdates_replicate_positions_length (now : ℤ) (pos : PosXYZ) :
    ∀ (n : ℕ) (s : MonitorState), s.isMonitoring = true →
      (applyPrinterUpdates now (List.replicate n (PrinterInput.mk (some pos) none)) s).positions.length
        = s.positions.length + n := by
  intro n
  induction n with
  | zero => intro s _; simp [applyPrinterUpdates]
  | succ n ih =>
      intro s h
      have step : applyPrinterUpdates now (List.replicate (n + 1) (PrinterInput.mk (some pos) none)) s
          = applyPrinterUpdates now (List.replicate n (PrinterInput.mk (some pos) none))
              (updatePrinterData (PrinterInput.mk (some pos) none) now s) := by
        rw [List.replicate_succ]; rfl
      have hm : (updatePrinterData (PrinterInput.mk (some pos) none) now s).isMonitoring = true := by
        rw [updatePrinterData_isMonitoring]; exact h
      rw [step, ih _ hm, updatePrinterData_positions_some _ now s h pos rfl,
          List.length_append]
      simp
      omega

lemma applyPrinterUpdates_frozen (now : ℤ) (ds : List PrinterInput) :
    ∀ s : MonitorState, s.isMonitoring = true →
      (∀ d ∈ ds, ∀ pos : PosXYZ, d.position = some pos → ⌊pos.z / (1/5 : ℚ)⌋ ≤ s.currentLayer) →
      (applyPrinterUpdates now ds s).currentLayer = s.currentLayer ∧
      (applyPrinterUpdates now ds s).layerCadenceRuns = s.layerCadenceRuns ∧
      (applyPrinterUpdates now ds s).isMonitoring = true := by
  induction ds with
  | nil => intro s h _; exact ⟨rfl, rfl, h⟩
  | cons d ds ih =>
      intro s h hall
      obtain ⟨h1, h2, h3⟩ := updatePrinterData_frozen d now s h
        (hall d (List.mem_cons_self d ds))
      have step : applyPrinterUpdates now (d :: ds) s
          = applyPrinterUpdates now ds (updatePrinterData d now s) := rfl
      have hall2 : ∀ d2 ∈ ds, ∀ pos : PosXYZ, d2.position = some pos →
          ⌊pos.z / (1/5 : ℚ)⌋ ≤ (updatePrinterData d now s).currentLayer := by
        intro d2 hd2 pos hp
        rw [h1]
        exact hall d2 (List.mem_cons_of_mem d hd2) pos hp
      obtain ⟨g1, g2, g3⟩ := ih (updatePrinterData d now s) h3 hall2
      exact ⟨by rw [step, g1, h1], by rw [step, g2, h2], by rw [step]; exact g3⟩

lemma applyPrinterUpdates_frozen10 (now : ℤ) (ds : List PrinterInput) :
    ∀ s : MonitorState, s.isMonitoring = true →
      (∀ d ∈ ds, ∀ pos : PosXYZ, d.position = some pos → ⌊pos.z / (1/5 : ℚ)⌋ ≤ s.currentLayer) →
      ¬(0 < s.currentLayer ∧ s.currentLayer % 10 = 0) →
      (applyPrinterUpdates now ds s).updatePathRuns = s.updatePathRuns := by
  induction ds with
  | nil => intro s _ _ _; rfl
  | cons d ds ih =>
      intro s h hall h10
      obtain ⟨h1, h2, h3⟩ := updatePrinterData_frozen d now s h
        (hall d (List.mem_cons_self d ds))
      have hupd := updatePrinterData_frozen10 d now s h
        (hall d (List.mem_cons_self d ds)) h10
      have step : applyPrinterUpdates now (d :: ds) s
          = applyPrinterUpdates now ds (updatePrinterData d now s) := rfl
      have hall2 : ∀ d2 ∈ ds, ∀ pos : PosXYZ, d2.position = some pos →
          ⌊pos.z / (1/5 : ℚ)⌋ ≤ (updatePrinterData d now s).currentLayer := by
        intro d2 hd2 pos hp
        rw [h1]
        exact hall d2 (List.mem_cons_of_mem d hd2) pos hp
      have h10b : ¬(0 < (updatePrinterData d now s).currentLayer ∧
          (updatePrinterData d now s).currentLayer % 10 = 0) := by
        rw [h1]; exact h10
      rw [step, ih _ h3 hall2 h10b, hupd]

/-! ## Claim C2 -/

/-- C2 counterexample: 101 accepted `updatePrinterData` calls carrying a
position leave 101 entries in the positions history — `updatePrinterData`
never trims, so a history *can* exceed 100 entries, refuting "never holds
more than 100 entries" for arbitrary update sequences. -/
theorem claim_C2_counterexample :
    (applyPrinterUpdates 0 (List.replicate 101 (PrinterInput.mk (some (PosXYZ.mk 0 0 0)) none))
        (startMonitoring 0 initialMonitor)).positions.length = 101 ∧
    ¬ (applyPrinterUpdates 0 (List.replicate 101 (PrinterInput.mk (some (PosXYZ.mk 0 0 0)) none))
        (startMonitoring 0 initialMonitor)).positions.length ≤ 100 := by
  have h := applyPrinterUpdates_replicate_positions_length 0 (PosXYZ.mk 0 0 0) 101
    (startMonitoring 0 initialMonitor) rfl
  have h0 : (startMonitoring 0 initialMonitor).positions.length = 0 := rfl
  rw [h0] at h
  exact ⟨h, by rw [h]; norm_num⟩

/-- C2 amended: the 100-entry cap is enforced by `updateSensorData`, which
trims all four channel histories on every accepted call — so after any
accepted `updateSensorData` call every history holds at most 100 entries,
and 150 sequential temperature records through `updateSensorData` from a
fresh session leave exactly the last 100 samples in original relative
order.  `updatePrinterData`, however, pushes positions and hotend
temperatures without trimming, so those histories can exceed 100 entries
until the next `updateSensorData` call (see the counterexample). -/
theorem claim_C2_amended :
    (∀ (d : SensorInput) (now : ℤ) (s : MonitorState), s.isMonitoring = true →
        (updateSensorData d now s).temperature.length ≤ 100 ∧
        (updateSensorData d now s).vibration.length ≤ 100 ∧
        (updateSensorData d now s).filamentFlow.length ≤ 100 ∧
        (updateSensorData d now s).positions.length ≤ 100) ∧
    (∀ (vs : List ℚ) (now startTime : ℤ), vs.length = 150 →
        (recordTemperatureSamples now vs (startMonitoring startTime initialMonitor)).temperature
          = vs.drop 50) := by
  constructor
  · intro d now s h
    rw [updateSensorData_monitoring_eq d now s h, checkRealTimeAlerts_temperature,
        checkRealTimeAlerts_vibration, checkRealTimeAlerts_filamentFlow,
        checkRealTimeAlerts_positions]
    exact ⟨trim100_length_le _, trim100_length_le _, trim100_length_le _, trim100_length_le _⟩
  · intro vs now t0 hlen
    have h0 : (startMonitoring t0 initialMonitor).temperature = ([] : List ℚ) := rfl
    rw [recordTemperatureSamples_temperature now vs _ rfl (by rw [h0]; norm_num),
        h0, List.nil_append, trim100_eq_drop, hlen]

/-- Witness for the amended C2: a single sensor reading on a fresh session
leaves every history within the cap. -/
theorem claim_C2_amended_witness :
    (startMonitoring 0 initialMonitor).isMonitoring = true ∧
    ((updateSensorData ⟨some 210, some 5, some 400⟩ 0
        (startMonitoring 0 initialMonitor)).temperature.length ≤ 100 ∧
     (updateSensorData ⟨some 210, some 5, some 400⟩ 0
        (startMonitoring 0 initialMonitor)).vibration.length ≤ 100 ∧
     (updateSensorData ⟨some 210, some 5, some 400⟩ 0
        (startMonitoring 0 initialMonitor)).filamentFlow.length ≤ 100 ∧
     (updateSensorData ⟨some 210, some 5, some 400⟩ 0
        (startMonitoring 0 initialMonitor)).positions.length ≤ 100) :=
  ⟨rfl, claim_C2_amended.1 ⟨some 210, some 5, some 400⟩ 0 (startMonitoring 0 initialMonitor) rfl⟩

/-! ## Claim C3 -/

/-- A concrete monitoring state sitting at layer 21 (reachable by starting a
session and sending a position with `z = 4.25`, since `⌊4.25/0.2⌋ = 21`). -/
def layer21State : MonitorState :=
  { initialMonitor with
    isMonitoring := true
    currentPrint := some { startTime := 0, endTime := none,
                           status := SessionStatus.printing, progress := 0 }
    currentLayer := 21 }

/-- C3 counterexample: ten consecutive accepted `updatePrinterData` calls at
layer 21 (positions with `z = 4.25`) trigger *no* spaghetti-detection
evaluation at all — neither on the update path (the code's condition is
`currentLayer % 10 === 0`, not an update counter) nor via the layer cadence
— even though all ten calls are accepted (the positions buffer grows by
ten).  This refutes "each 10th accepted updatePrinterData call triggers an
evaluation regardless of the current layer index". -/
theorem claim_C3_counterexample :
    layer21State.isMonitoring = true ∧
    (applyPrinterUpdates 0
        (List.replicate 10 (PrinterInput.mk (some (PosXYZ.mk 0 0 (17/4))) none))
        layer21State).updatePathRuns = 0 ∧
    (applyPrinterUpdates 0
        (List.replicate 10 (PrinterInput.mk (some (PosXYZ.mk 0 0 (17/4))) none))
        layer21State).layerCadenceRuns = 0 ∧
    (applyPrinterUpdates 0
        (List.replicate 10 (PrinterInput.mk (some (PosXYZ.mk 0 0 (17/4))) none))
        layer21State).positions.length = 10 := by
  have hall : ∀ d ∈ List.replicate 10 (PrinterInput.mk (some (PosXYZ.mk 0 0 (17/4))) none),
      ∀ pos : PosXYZ, d.position = some pos →
        ⌊pos.z / (1/5 : ℚ)⌋ ≤ layer21State.currentLayer := by
    intro d hd pos hp
    rw [List.eq_of_mem_replicate hd] at hp
    injection hp with hpp
    subst hpp
    show ⌊(17/4 : ℚ) / (1/5 : ℚ)⌋ ≤ (21 : ℤ)
    norm_num
  have h10 : ¬(0 < layer21State.currentLayer ∧ layer21State.currentLayer % 10 = 0) := by
    decide
  have hfr := applyPrinterUpdates_frozen 0 _ layer21State rfl hall
  have hfr10 := applyPrinterUpdates_frozen10 0 _ layer21State rfl hall h10
  have hlen := applyPrinterUpdates_replicate_positions_length 0 (PosXYZ.mk 0 0 (17/4)) 10
    layer21State rfl
  refine ⟨rfl, ?_, ?_, ?_⟩
  · rw [hfr10]; rfl
  · rw [hfr.2.1]; rfl
  · rw [hlen]; rfl

/-- C3 amended: the Session Monitor has no per-update counter; instead, the
end of every *accepted* `updatePrinterData` call triggers a spaghetti
detection exactly when the (possibly just advanced) `currentLayer` is a
positive multiple of 10 — every call fires while the print sits on such a
layer, and no call fires on other layers (the layer-based cadence of
`updateLayerTracking` remains a separate trigger). -/
theorem claim_C3_amended (d : PrinterInput) (now : ℤ) (s : MonitorState)
    (h : s.isMonitoring = true) :
    (updatePrinterData d now s).updatePathRuns =
      (if 0 < (updatePrinterData d now s).currentLayer ∧
          (updatePrinterData d now s).currentLayer % 10 = 0
       then s.updatePathRuns + 1 else s.updatePathRuns) := by
  rw [updatePrinterData_monitoring_eq d now s h]
  rw [runDetectionOnUpdatePath_updatePathRuns, runDetectionOnUpdatePath_currentLayer,
      estimateProgress_updatePathRuns, pushHotendTemperature_updatePathRuns,
      pushPositionAndTrack_updatePathRuns]

/-- Witness for the amended C3: an accepted positionless update on a fresh
session (layer 0) leaves the update-path detection counter unchanged. -/
theorem claim_C3_amended_witness :
    (startMonitoring 0 initialMonitor).isMonitoring = true ∧
    (updatePrinterData (PrinterInput.mk none none) 0
        (startMonitoring 0 initialMonitor)).updatePathRuns =
      (if 0 < (updatePrinterData (PrinterInput.mk none none) 0
            (startMonitoring 0 initialMonitor)).currentLayer ∧
          (updatePrinterData (PrinterInput.mk none none) 0
            (startMonitoring 0 initialMonitor)).currentLayer % 10 = 0
       then (startMonitoring 0 initialMonitor).updatePathRuns + 1
       else (startMonitoring 0 initialMonitor).updatePathRuns) :=
  ⟨rfl, claim_C3_amended (PrinterInput.mk none none) 0 (startMonitoring 0 initialMonitor) rfl⟩

/-! ## Claim C5 -/

/-- C5 counterexample: an alert recorded at time 0 (a filament-flow error)
is still returned by `getCurrentStatus` queried 61 minutes (3,660,000 ms)
later — `getCurrentStatus` only slices the last 5 alerts and performs no
pruning, refuting "entries older than one hour are pruned whenever the list
is consulted". -/
theorem claim_C5_counterexample :
    (3600000 : ℤ) < 3660000 - 0 ∧
    (getCurrentStatus 3660000
        (updateSensorData (SensorInput.mk none none (some 50)) 0
          (startMonitoring 0 initialMonitor))).recentAlerts
      = [MAlert.mk MAlertType.error "Possible filament jam or runout" 50 0] := by
  constructor
  · norm_num
  · rfl

/-- C5 amended: pruning of alerts older than one hour happens only when
`checkRealTimeAlerts` appends (every surviving alert is strictly newer than
`now - 3600000`, and every still-fresh alert survives the append);
`getCurrentStatus` does not prune — it returns the last five alerts of the
session list unchanged, so an over-an-hour-old alert remains visible there
until some later append prunes it. -/
theorem claim_C5_amended :
    (∀ (d : SensorInput) (now : ℤ) (s : MonitorState) (a : MAlert),
        a ∈ (checkRealTimeAlerts d now s).alerts → now - 3600000 < a.timestamp) ∧
    (∀ (d : SensorInput) (now : ℤ) (s : MonitorState) (a : MAlert),
        a ∈ s.alerts → now - 3600000 < a.timestamp →
        a ∈ (checkRealTimeAlerts d now s).alerts) ∧
    (∀ (now : ℤ) (s : MonitorState) (p : PrintSession), s.isMonitoring = true →
        s.currentPrint = some p →
        (getCurrentStatus now s).recentAlerts = takeLast 5 s.alerts) := by
  refine ⟨?_, ?_, ?_⟩
  · intro d now s a ha
    simp only [checkRealTimeAlerts, List.mem_filter, decide_eq_true_eq] at ha
    exact ha.2
  · intro d now s a ha hts
    simp only [checkRealTimeAlerts, List.mem_filter, decide_eq_true_eq]
    exact ⟨List.mem_append_left _ ha, hts⟩
  · intro now s p h hp
    unfold getCurrentStatus
    rw [h, hp]

/-- Witness for the amended C5: a 59-minute-old alert (timestamp 120,000 at
append time 3,660,000) survives an append. -/
theorem claim_C5_amended_witness :
    (MAlert.mk MAlertType.warning "High temperature detected" 300 120000
      ∈ ({ initialMonitor with
           alerts := [MAlert.mk MAlertType.warning "High temperature detected" 300 120000]
         } : MonitorState).alerts) ∧
    ((3660000 : ℤ) - 3600000 < 120000) ∧
    MAlert.mk MAlertType.warning "High temperature detected" 300 120000 ∈
      (checkRealTimeAlerts (SensorInput.mk none none none) 3660000
        { initialMonitor with
          alerts := [MAlert.mk MAlertType.warning "High temperature detected" 300 120000]
        }).alerts := by
  refine ⟨List.mem_singleton_self _, by norm_num, ?_⟩
  exact claim_C5_amended.2.1 (SensorInput.mk none none none) 3660000
    { initialMonitor with
      alerts := [MAlert.mk MAlertType.warning "High temperature detected" 300 120000] }
    (MAlert.mk MAlertType.warning "High temperature detected" 300 120000)
    (List.mem_singleton_self _) (by norm_num)

/-! ## Claim C8 -/

/-- C8: the layer index is monotone non-decreasing: `updateLayerTracking`
advances `currentLayer` to `⌊z / 0.2⌋` exactly when that value is strictly
greater than the current layer and leaves it unchanged otherwise (never
decrementing it on retraction moves), and consequently any sequence of
printer-telemetry updates never decreases `currentLayer`. -/
theorem claim_C8 :
    (∀ (s : MonitorState) (z : ℚ),
        (updateLayerTracking z s).currentLayer =
          (if s.currentLayer < ⌊z / (1/5 : ℚ)⌋ then ⌊z / (1/5 : ℚ)⌋ else s.currentLayer) ∧
        s.currentLayer ≤ (updateLayerTracking z s).currentLayer) ∧
    (∀ (now : ℤ) (ds : List PrinterInput) (s : MonitorState),
        s.currentLayer ≤ (applyPrinterUpdates now ds s).currentLayer) := by
  constructor
  · intro s z
    exact ⟨updateLayerTracking_currentLayer z s, updateLayerTracking_currentLayer_le z s⟩
  · intro now ds
    induction ds with
    | nil => intro s; exact le_rfl
    | cons d ds ih =>
        intro s
        exact le_trans (updatePrinterData_currentLayer_le d now s)
          (ih (updatePrinterData d now s))

/-! ## Claim C9 -/

/-- C9: `startMonitoring` (after a `stopMonitoring`) clears the four channel
buffers and the alert list but leaves `currentLayer` untouched, so a new
session on the same monitor starts at the old session's layer `L`, and
position updates whose `⌊z/0.2⌋` does not exceed `L` neither advance the
layer nor ever fire the layer-based evaluation cadence in the new
session. -/
theorem claim_C9 (s : MonitorState) (t1 t2 now : ℤ) (ds : List PrinterInput)
    (h : ∀ d ∈ ds, ∀ pos : PosXYZ, d.position = some pos →
        ⌊pos.z / (1/5 : ℚ)⌋ ≤ s.currentLayer) :
    (startMonitoring t2 (stopMonitoring t1 s)).currentLayer = s.currentLayer ∧
    (startMonitoring t2 (stopMonitoring t1 s)).temperature = [] ∧
    (startMonitoring t2 (stopMonitoring t1 s)).vibration = [] ∧
    (startMonitoring t2 (stopMonitoring t1 s)).filamentFlow = [] ∧
    (startMonitoring t2 (stopMonitoring t1 s)).positions = [] ∧
    (startMonitoring t2 (stopMonitoring t1 s)).alerts = [] ∧
    (applyPrinterUpdates now ds (startMonitoring t2 (stopMonitoring t1 s))).currentLayer
      = s.currentLayer ∧
    (applyPrinterUpdates now ds (startMonitoring t2 (stopMonitoring t1 s))).layerCadenceRuns
      = (startMonitoring t2 (stopMonitoring t1 s)).layerCadenceRuns := by
  have hcur : (startMonitoring t2 (stopMonitoring t1 s)).currentLayer = s.currentLayer := rfl
  have hall : ∀ d ∈ ds, ∀ pos : PosXYZ, d.position = some pos →
      ⌊pos.z / (1/5 : ℚ)⌋ ≤ (startMonitoring t2 (stopMonitoring t1 s)).currentLayer := by
    intro d hd pos hp
    rw [hcur]
    exact h d hd pos hp
  have hfro := applyPrinterUpdates_frozen now ds (startMonitoring t2 (stopMonitoring t1 s))
    rfl hall
  refine ⟨rfl, rfl, rfl, rfl, rfl, rfl, ?_, hfro.2.1⟩
  rw [hfro.1, hcur]

/-- Witness for C9 on a fresh monitor with a single `z = 0` position update
(layer 0 throughout). -/
theorem claim_C9_witness :
    (∀ d ∈ [PrinterInput.mk (some (PosXYZ.mk 0 0 0)) none], ∀ pos : PosXYZ,
        d.position = some pos → ⌊pos.z / (1/5 : ℚ)⌋ ≤ initialMonitor.currentLayer) ∧
    ((startMonitoring 0 (stopMonitoring 0 initialMonitor)).currentLayer
        = initialMonitor.currentLayer ∧
     (startMonitoring 0 (stopMonitoring 0 initialMonitor)).temperature = [] ∧
     (startMonitoring 0 (stopMonitoring 0 initialMonitor)).vibration = [] ∧
     (startMonitoring 0 (stopMonitoring 0 initialMonitor)).filamentFlow = [] ∧
     (startMonitoring 0 (stopMonitoring 0 initialMonitor)).positions = [] ∧
     (startMonitoring 0 (stopMonitoring 0 initialMonitor)).alerts = [] ∧
     (applyPrinterUpdates 0 [PrinterInput.mk (some (PosXYZ.mk 0 0 0)) none]
        (startMonitoring 0 (stopMonitoring 0 initialMonitor))).currentLayer
        = initialMonitor.currentLayer ∧
     (applyPrinterUpdates 0 [PrinterInput.mk (some (PosXYZ.mk 0 0 0)) none]
        (startMonitoring 0 (stopMonitoring 0 initialMonitor))).layerCadenceRuns
        = (startMonitoring 0 (stopMonitoring 0 initialMonitor)).layerCadenceRuns) := by
  have hyp : ∀ d ∈ [PrinterInput.mk (some (PosXYZ.mk 0 0 0)) none], ∀ pos : PosXYZ,
      d.position = some pos → ⌊pos.z / (1/5 : ℚ)⌋ ≤ initialMonitor.currentLayer := by
    intro d hd pos hp
    rw [List.mem_singleton] at hd
    subst hd
    injection hp with hpp
    subst hpp
    show ⌊(0 : ℚ) / (1/5 : ℚ)⌋ ≤ (0 : ℤ)
    norm_num
  exact ⟨hyp, claim_C9 initialMonitor 0 0 0 [PrinterInput.mk (some (PosXYZ.mk 0 0 0)) none] hyp⟩

/-! ## Claim C6 -/

/-- C6: for every evaluation, `riskScore > 0.8` (the threshold is applied to
the risk score handed to `generateRecommendation`) or any high-severity
sensor alert yields `immediate_intervention` with urgency high; otherwise
`riskScore > 0.5` yields `monitor_closely` with urgency medium; otherwise
`continue_monitoring` with urgency low. -/
theorem claim_C6 (rs : ℚ) (alerts : List SAlert) :
    ((4/5 < rs ∨ ∃ a ∈ alerts, a.severity = Severity.high) →
      (generateRecommendation rs alerts).action = RecAction.immediateIntervention ∧
      (generateRecommendation rs alerts).urgency = Urgency.high) ∧
    ((rs ≤ 4/5 ∧ (∀ a ∈ alerts, a.severity ≠ Severity.high) ∧ 1/2 < rs) →
      (generateRecommendation rs alerts).action = RecAction.monitorClosely ∧
      (generateRecommendation rs alerts).urgency = Urgency.medium) ∧
    ((rs ≤ 1/2 ∧ (∀ a ∈ alerts, a.severity ≠ Severity.high)) →
      (generateRecommendation rs alerts).action = RecAction.continueMonitoring ∧
      (generateRecommendation rs alerts).urgency = Urgency.low) := by
  have hany : (alerts.any fun a => a.severity == Severity.high) = true ↔
      ∃ a ∈ alerts, a.severity = Severity.high := by
    simp [List.any_eq_true]
  refine ⟨?_, ?_, ?_⟩
  · rintro (h | h)
    · unfold generateRecommendation
      rw [if_pos (Or.inl h)]
      exact ⟨rfl, rfl⟩
    · unfold generateRecommendation
      rw [if_pos (Or.inr (hany.mpr h))]
      exact ⟨rfl, rfl⟩
  · rintro ⟨h1, h2, h3⟩
    have hno : ¬(4/5 < rs ∨ (alerts.any fun a => a.severity == Severity.high) = true) := by
      rintro (hc | hc)
      · exact absurd hc (not_lt.mpr h1)
      · obtain ⟨a, ha, hsev⟩ := hany.mp hc
        exact h2 a ha hsev
    unfold generateRecommendation
    rw [if_neg hno, if_pos h3]
    exact ⟨rfl, rfl⟩
  · rintro ⟨h1, h2⟩
    have hno : ¬(4/5 < rs ∨ (alerts.any fun a => a.severity == Severity.high) = true) := by
      rintro (hc | hc)
      · linarith
      · obtain ⟨a, ha, hsev⟩ := hany.mp hc
        exact h2 a ha hsev
    unfold generateRecommendation
    rw [if_neg hno, if_neg (not_lt.mpr h1)]
    exact ⟨rfl, rfl⟩

/-- Witness for C6: risk score 0.9 with no alerts yields immediate
intervention with urgency high. -/
theorem claim_C6_witness :
    (4/5 < (9/10 : ℚ) ∨ ∃ a ∈ ([] : List SAlert), a.severity = Severity.high) ∧
    (generateRecommendation (9/10) []).action = RecAction.immediateIntervention ∧
    (generateRecommendation (9/10) []).urgency = Urgency.high :=
  ⟨Or.inl (by norm_num), (claim_C6 (9/10) []).1 (Or.inl (by norm_num))⟩

/-! ## Claim C7 -/

/-- C7 counterexample: on a fresh detector (empty detection history),
`reportFeedback` does *not* leave the feedback counters unchanged — it
increments `truePositives` with no invalid-state check. -/
theorem claim_C7_counterexample :
    initialDetector.detectionHistory = [] ∧
    initialDetector.truePositives = 0 ∧
    (reportFeedback true initialDetector).truePositives = 1 := by
  refine ⟨rfl, rfl, ?_⟩
  simp [reportFeedback, initialDetector]

/-- C7 amended: calling `reportFeedback` with an empty detection history
performs no invalid-state check and does not crash: it simply increments one
of the two feedback counters (their sum grows by exactly one) and leaves the
history empty. -/
theorem claim_C7_amended (b : Bool) (s : DetectorState)
    (h : s.detectionHistory = []) :
    (reportFeedback b s).detectionHistory = [] ∧
    (reportFeedback b s).truePositives + (reportFeedback b s).falsePositives
      = s.truePositives + s.falsePositives + 1 := by
  cases b <;> simp [reportFeedback, h] <;> omega

/-- Witness for the amended C7 on a fresh detector with a false-positive
report. -/
theorem claim_C7_amended_witness :
    initialDetector.detectionHistory = [] ∧
    ((reportFeedback false initialDetector).detectionHistory = [] ∧
     (reportFeedback false initialDetector).truePositives
       + (reportFeedback false initialDetector).falsePositives
       = initialDetector.truePositives + initialDetector.falsePositives + 1) :=
  ⟨rfl, claim_C7_amended false initialDetector rfl⟩

/-! ## Claim C4 -/

/-- C4 counterexample: the claimed window `[450,460,455,440,30]` produces
*no* sensor alert at all — as the whole buffer it fails the `length > 5`
guard, and as the last-5 window of a longer buffer its average is 367, not
below 100 (and its variation 168.6... does not exceed half the average
183.5). -/
theorem claim_C4_counterexample :
    analyzeSensorPatterns ⟨[], [], [450, 460, 455, 440, 30]⟩ = [] ∧
    analyzeSensorPatterns ⟨[], [], [0, 450, 460, 455, 440, 30]⟩ = [] := by
  constructor <;>
    norm_num [analyzeSensorPatterns, takeLast, average, varianceQ, calculateVariationGT]

/-- C4 amended: the flow scan needs more than 5 buffered samples and fires
on a last-5 average below 100.  For the buffer `[450,90,80,70,60,50]`
(last-5 average 70) it produces exactly the `low_flow` alert with severity
high and confidence 0.9, and at layer 2 (first-layers risk active, risk
score 1) the recommendation is immediate intervention with urgency high. -/
theorem claim_C4_amended_theorem :
    analyzeSensorPatterns ⟨[], [], [450, 90, 80, 70, 60, 50]⟩ =
      [⟨SAlertType.lowFlow, Severity.high,
        "Low filament flow - possible jam or detachment", 9/10⟩] ∧
    (generateRecommendation (calculateRiskScore zeroLayerData 2)
       (analyzeSensorPatterns ⟨[], [], [450, 90, 80, 70, 60, 50]⟩)).action
      = RecAction.immediateIntervention ∧
    (generateRecommendation (calculateRiskScore zeroLayerData 2)
       (analyzeSensorPatterns ⟨[], [], [450, 90, 80, 70, 60, 50]⟩)).urgency
      = Urgency.high := by
  have halerts : analyzeSensorPatterns ⟨[], [], [450, 90, 80, 70, 60, 50]⟩ =
      [⟨SAlertType.lowFlow, Severity.high,
        "Low filament flow - possible jam or detachment", 9/10⟩] := by
    norm_num [analyzeSensorPatterns, takeLast, average, varianceQ, calculateVariationGT]
  have hrs : calculateRiskScore zeroLayerData 2 = 1 := by
    norm_num [calculateRiskScore, weightSum, dampedRisk, totalRisk, overhangRisk,
      bridgeRisk, firstLayersRisk, smallFeaturesRisk, overhangWeight, bridgeWeight,
      firstLayersWeight, smallFeaturesWeight, zeroLayerData]
  refine ⟨halerts, ?_, ?_⟩ <;> rw [halerts, hrs] <;> norm_num [generateRecommendation]

/-! ## Claim C10 -/

lemma jsOr_zero (d : ℝ) : jsOr 0 d = d := by simp [jsOr]

lemma generateQualityReport_overallScore (temps vib : List ℝ)
    (flow : Option (List ℝ)) (lh : List ℝ) :
    (generateQualityReport temps vib flow lh).overallScore =
      jsRoundR ((jsOr (analyzeTemperatureProfile temps).stability 100 +
                 jsOr (analyzeVibrationData vib).score 100 +
                 jsOr (analyzeLayerQuality lh flow).score 100) / 3) := by
  simp only [generateQualityReport]
  norm_num [List.sum_cons, List.sum_nil]
  ring_nf

lemma generateQualityReport_metrics_vibrationLevel (temps vib : List ℝ)
    (flow : Option (List ℝ)) (lh : List ℝ) :
    (generateQualityReport temps vib flow lh).metrics.vibrationLevel =
      jsOr (analyzeVibrationData vib).score 0 := by
  simp only [generateQualityReport]

/-- C10: in `generateQualityReport` a sub-score of exactly 0 is falsy in JS,
so `score || 100` replaces it by 100 inside `overallScore` while
`score || 0` reports it as 0 in `metrics`; in particular constant 200-degree
temperatures, constant vibration 100 (vibration score 0), empty flow data
and the default layer height yield a report with `overallScore = 100`
together with `metrics.vibrationLevel = 0`. -/
theorem claim_C10 :
    (∀ (temps vib : List ℝ) (flow : Option (List ℝ)) (lh : List ℝ),
        (analyzeVibrationData vib).score = 0 →
        (generateQualityReport temps vib flow lh).metrics.vibrationLevel = 0 ∧
        (generateQualityReport temps vib flow lh).overallScore =
          jsRoundR ((jsOr (analyzeTemperatureProfile temps).stability 100 + 100 +
            jsOr (analyzeLayerQuality lh flow).score 100) / 3)) ∧
    ((generateQualityReport [200, 200] [100, 100] (some []) [1/5]).overallScore = 100 ∧
     (generateQualityReport [200, 200] [100, 100] (some []) [1/5]).metrics.vibrationLevel
       = 0) := by
  have havg2 : rAverage [200, 200] = 200 := by
    norm_num [rAverage, List.sum_cons, List.sum_nil]
  have hvar2 : calculateVariationR [200, 200] = 0 := by
    norm_num [calculateVariationR, havg2, List.sum_cons, List.sum_nil]
  have hstab : (analyzeTemperatureProfile [200, 200]).stability = 100 := by
    norm_num [analyzeTemperatureProfile, hvar2]
  have hvib : (analyzeVibrationData [100, 100]).score = 0 := by
    norm_num [analyzeVibrationData, rAverage, List.sum_cons, List.sum_nil]
  have hvar1 : calculateVariationR [1/5] = 0 := by
    norm_num [calculateVariationR, rAverage, List.sum_cons, List.sum_nil]
  have hvar0 : calculateVariationR [] = 0 := by
    simp [calculateVariationR]
  have hlayer : (analyzeLayerQuality [1/5] (some [])).score = 100 := by
    norm_num [analyzeLayerQuality, hvar1, hvar0]
  constructor
  · intro temps vib flow lh h
    constructor
    · rw [generateQualityReport_metrics_vibrationLevel, h, jsOr_zero]
    · rw [generateQualityReport_overallScore, h, jsOr_zero]
  · constructor
    · rw [generateQualityReport_overallScore, hstab, hvib, hlayer, jsOr_zero]
      have h100 : jsOr (100 : ℝ) 100 = 100 := by norm_num [jsOr]
      rw [h100]
      have harg : ((100 : ℝ) + 100 + 100) / 3 = 100 := by norm_num
      rw [harg]
      unfold jsRoundR
      have : (100 : ℝ) + 1/2 = 201/2 := by norm_num
      rw [this, Int.floor_eq_iff]
      constructor <;> norm_num
    · rw [generateQualityReport_metrics_vibrationLevel, hvib, jsOr_zero]

/-- Witness for C10 at the vibration window `[100, 100]` (score exactly 0). -/
theorem claim_C10_witness :
    (analyzeVibrationData [100, 100]).score = 0 ∧
    ((generateQualityReport [] [100, 100] none []).metrics.vibrationLevel = 0 ∧
     (generateQualityReport [] [100, 100] none []).overallScore =
       jsRoundR ((jsOr (analyzeTemperatureProfile []).stability 100 + 100 +
         jsOr (analyzeLayerQuality [] none).score 100) / 3)) := by
  have h : (analyzeVibrationData [100, 100]).score = 0 := by
    norm_num [analyzeVibrationData, rAverage, List.sum_cons, List.sum_nil]
  exact ⟨h, claim_C10.1 [] [100, 100] none [] h⟩

end FADA
